import Mathlib

/-!
Verification of the `sonaar-client-light` dashboard (`app_client_light.py`)
against its natural-language specification.

The Python source is shallowly embedded: a pandas `DataFrame` becomes a list
of records (one structure per panel, holding exactly the columns that panel
reads), nullable cells become `Option`, numeric aggregates are `Nat`/`Rat`,
and pandas float quirks (`NaN`/`inf` from division by zero) are modelled by
an explicit `PdFloat` type.  Each `display_*` panel function is translated to
a pure Lean function from the record list to an explicit result value.
-/

namespace AppClientLight

/-- The fixed required-column list of `is_processed_file`
(`app_client_light.py`, lines 10-19). -/
def requiredColumns : List String :=
  [ "theme_principal"
  , "sous_theme"
  , "date"
  , "conversationId"
  , "turn_count"
  , "default_count"
  , "feedbackPositive"
  , "feedbackNegative" ]

/-- `is_processed_file(df)`: `all(col in df.columns for col in required_columns)`
(line 21).  A dataframe is represented by its column-name list. -/
def is_processed_file (columns : List String) : Bool :=
  requiredColumns.all (fun col => columns.contains col)

/-- A parsed pandas timestamp: an integer day number plus a fractional
time-of-day part.  `pd.to_datetime(...).dt.normalize()` zeroes the
time-of-day part. -/
structure Timestamp where
  day : Int
  frac : Rat
deriving DecidableEq, Repr

/-- `.dt.normalize()`: truncate a timestamp to day granularity. -/
def Timestamp.normalize (t : Timestamp) : Timestamp := ⟨t.day, 0⟩

/-- One item of the parsed `formulaire_data` JSON cell: a form name mapped to
its `triggers` and `completions` counters (lines 337-342). -/
structure FormEntry where
  name : String
  triggers : Nat
  completions : Nat
deriving DecidableEq, Repr

/-- One row of the uploaded CSV.  Nullable cells are `Option`; `none` models
a pandas `NaN`.  The `formulaire_data` cell holds the already-parsed JSON
mapping (`none` models a null/empty cell that fails the `if row['formulaire_data']`
truthiness test at line 335). -/
structure Row where
  theme_principal : Option String
  sous_theme : Option String
  date : Timestamp
  conversationId : String
  turn_count : Nat
  default_count : Nat
  feedbackPositive : Nat
  feedbackNegative : Nat
  language_normalized : Option String
  is_hot_topic : Bool
  hot_topic_name : Option String
  urls : Option String
  device : Option String
  formulaire_data : Option (List FormEntry)
deriving DecidableEq, Repr

/-- A dataframe: the list of column names actually present in the uploaded
file (what `df.columns` reports) plus the row data.  Panels consult `cols`
for their capability checks (`'x' in df.columns`); fields of `Row` for
columns not listed in `cols` are never consulted by a faithful panel. -/
structure Dataset where
  cols : List String
  rows : List Row
deriving DecidableEq, Repr

/-- A row with every cell null/zero, used to build concrete datasets. -/
def baseRow : Row :=
  ⟨none, none, ⟨0, 0⟩, "", 0, 0, 0, 0, none, false, none, none, none, none⟩

def Row.setDate (r : Row) (d : Timestamp) : Row :=
  ⟨r.theme_principal, r.sous_theme, d, r.conversationId, r.turn_count,
   r.default_count, r.feedbackPositive, r.feedbackNegative,
   r.language_normalized, r.is_hot_topic, r.hot_topic_name, r.urls,
   r.device, r.formulaire_data⟩

def Row.setFeedback (r : Row) (pos neg : Nat) : Row :=
  ⟨r.theme_principal, r.sous_theme, r.date, r.conversationId, r.turn_count,
   r.default_count, pos, neg, r.language_normalized, r.is_hot_topic,
   r.hot_topic_name, r.urls, r.device, r.formulaire_data⟩

def Row.setThemes (r : Row) (t s : Option String) : Row :=
  ⟨t, s, r.date, r.conversationId, r.turn_count, r.default_count,
   r.feedbackPositive, r.feedbackNegative, r.language_normalized,
   r.is_hot_topic, r.hot_topic_name, r.urls, r.device, r.formulaire_data⟩

def Row.setLang (r : Row) (l : Option String) : Row :=
  ⟨r.theme_principal, r.sous_theme, r.date, r.conversationId, r.turn_count,
   r.default_count, r.feedbackPositive, r.feedbackNegative, l,
   r.is_hot_topic, r.hot_topic_name, r.urls, r.device, r.formulaire_data⟩

def Row.setHot (r : Row) (flag : Bool) (nm : Option String) : Row :=
  ⟨r.theme_principal, r.sous_theme, r.date, r.conversationId, r.turn_count,
   r.default_count, r.feedbackPositive, r.feedbackNegative,
   r.language_normalized, flag, nm, r.urls, r.device, r.formulaire_data⟩

def Row.setUrls (r : Row) (u : Option String) : Row :=
  ⟨r.theme_principal, r.sous_theme, r.date, r.conversationId, r.turn_count,
   r.default_count, r.feedbackPositive, r.feedbackNegative,
   r.language_normalized, r.is_hot_topic, r.hot_topic_name, u,
   r.device, r.formulaire_data⟩

def Row.setForm (r : Row) (f : Option (List FormEntry)) : Row :=
  ⟨r.theme_principal, r.sous_theme, r.date, r.conversationId, r.turn_count,
   r.default_count, r.feedbackPositive, r.feedbackNegative,
   r.language_normalized, r.is_hot_topic, r.hot_topic_name, r.urls,
   r.device, f⟩

/-- What one panel leaves on the page: nothing at all (a bare `return`),
an `st.info` notice (no table, no chart), or rendered output. -/
inductive PanelResult (α : Type) where
  | silent : PanelResult α
  | info : String → PanelResult α
  | render : α → PanelResult α
deriving DecidableEq

/-- Whether a panel result is an informational notice. -/
def PanelResult.isInfo {α : Type} : PanelResult α → Bool
  | .info _ => true
  | _ => false

/-- The `try:/except Exception: st.info(...)` boundary every `display_*`
panel wraps around its computation (e.g. lines 33 and 92-93): an `ok`
computation renders, any raised error is downgraded to the panel's generic
informational message. -/
def tryBoundary {α : Type} (fallback : String) (body : Except String α) :
    PanelResult α :=
  match body with
  | .ok a => .render a
  | .error _ => .info fallback

/-- `main`'s dashboard loop (lines 990-1018): each panel body is run behind
its own `tryBoundary` against the same filtered dataset, one after the
other. -/
def runDashboard {α : Type}
    (panels : List ((Dataset → Except String α) × String)) (df : Dataset) :
    List (PanelResult α) :=
  panels.map fun p => tryBoundary p.2 (p.1 df)

/-- Descending order on a `Nat` key (`sort_values(ascending=False)`,
`sorted(..., reverse=True)`). -/
def descBy {α : Type} (key : α → Nat) : α → α → Prop := fun a b => key b ≤ key a

instance {α : Type} (key : α → Nat) : DecidableRel (descBy key) :=
  fun a b => Nat.decLe (key b) (key a)

instance {α : Type} (key : α → Nat) : IsTotal α (descBy key) :=
  ⟨fun a b => Nat.le_total (key b) (key a)⟩

instance {α : Type} (key : α → Nat) : IsTrans α (descBy key) :=
  ⟨fun _ _ _ h1 h2 => Nat.le_trans h2 h1⟩

/-- Stable sort descending by a `Nat` key, modelling pandas
`sort_values(ascending=False)` and Python `sorted(..., reverse=True)`. -/
def sortDescBy {α : Type} (key : α → Nat) (l : List α) : List α :=
  List.insertionSort (descBy key) l

/-- pandas `.round(1)`: round to one decimal place. -/
def round1 (q : Rat) : Rat := (round (10 * q) : Int) / 10

/-- A pandas float resulting from a column division: a finite value, or the
`NaN` / `inf` that integer-column division by zero produces (`0/0 = NaN`,
`c/0 = inf` for `c > 0`; pandas raises no error). -/
inductive PdFloat where
  | val : Rat → PdFloat
  | nan : PdFloat
  | inf : PdFloat
deriving DecidableEq, Repr

/-- Element-wise pandas division of two non-negative integer columns. -/
def pdDivNat (c t : Nat) : PdFloat :=
  if t = 0 then (if c = 0 then .nan else .inf) else .val ((c : Rat) / (t : Rat))

/-- pandas `.fillna(q)`: replaces `NaN` (but not `inf`). -/
def PdFloat.fillna (x : PdFloat) (q : Rat) : PdFloat :=
  match x with
  | .nan => .val q
  | x => x

/-! ### Theme-breakdown panel: `display_statistics` (lines 23-93) -/

/-- Rows with a non-null `theme_principal` that is also not the empty
string: `df['theme_principal'].notna() & (df['theme_principal'] != "")`
(line 36). -/
def hasThemeCount (df : Dataset) : Nat :=
  (df.rows.filter fun r =>
    match r.theme_principal with
    | some t => t ≠ ""
    | none => false).length

/-- The `(theme_principal, sous_theme)` key of each row kept by
`df.groupby(['theme_principal', 'sous_theme'])` (line 49); pandas drops a
row from the grouping when either key is `NaN`. -/
def themePairs (df : Dataset) : List (String × String) :=
  df.rows.filterMap fun r =>
    match r.theme_principal, r.sous_theme with
    | some t, some s => some (t, s)
    | _, _ => none

/-- The `.size()` of one `(theme, sous_theme)` group. -/
def pairCount (df : Dataset) (t s : String) : Nat :=
  (themePairs df).count (t, s)

/-- The distinct themes appearing in the grouped data. -/
def themesOf (df : Dataset) : List String :=
  ((themePairs df).dedup.map (fun p => p.1)).dedup

/-- The distinct sub-themes grouped under theme `t`. -/
def themeSubs (df : Dataset) (t : String) : List String :=
  ((themePairs df).dedup.filter (fun p => p.1 = t)).map (fun p => p.2)

/-- `theme_totals[t]`: the summed group counts of theme `t` (line 58 sums
the per-`(theme, sous)` counts per theme). -/
def themeTotal (df : Dataset) (t : String) : Nat :=
  ((themeSubs df t).map (pairCount df t)).sum

/-- One sub-theme line of the theme table: label, its displayed
percentage-of-all-rows (line 55), and its group count. -/
structure StatsSubRow where
  sous : String
  percentage : Rat
  count : Nat
deriving DecidableEq, Repr

/-- One theme block of the table (lines 63-75): in the rendered flat table
the theme label and its percentage appear on the block's first line and the
sub-theme lines follow; the block keeps the same data nested. -/
structure StatsBlock where
  theme : String
  theme_percentage : Rat
  count : Nat
  subRows : List StatsSubRow
deriving DecidableEq, Repr

/-- Output of the theme panel. -/
structure StatsOut where
  theme_conversations : Nat
  theme_percentage : Rat
  table : List StatsBlock
deriving DecidableEq, Repr

/-- The sub-theme lines of theme `t`, sorted descending by count
(line 64). -/
def statsSubRowsFor (df : Dataset) (t : String) : List StatsSubRow :=
  (sortDescBy (fun p => p.2)
      ((themeSubs df t).map fun s => (s, pairCount df t s))).map
    fun p => ⟨p.1, round1 ((p.2 : Rat) / (df.rows.length : Rat) * 100), p.2⟩

/-- `display_statistics` (lines 23-93).  The flat displayed table
(theme label only on each block's first line) is rendered here as the
equivalent nested block list, themes sorted descending by total count
(line 58) and sub-themes sorted descending by count (line 64). -/
def display_statistics (df : Dataset) : PanelResult StatsOut :=
  if df.rows.isEmpty then
    .info "📊 Aucune donnée disponible pour les statistiques des thèmes."
  else if "theme_principal" ∉ df.cols ∨ "sous_theme" ∉ df.cols then
    .info "📊 Les colonnes de thèmes ne sont pas disponibles dans les données."
  else
    let n := df.rows.length
    if (themePairs df).isEmpty then .info "Aucune donnée de thème disponible."
    else
      .render ⟨hasThemeCount df,
        round1 ((hasThemeCount df : Rat) / (n : Rat) * 100),
        (sortDescBy (fun p => p.2)
            ((themesOf df).map fun t => (t, themeTotal df t))).map
          fun p =>
            ⟨p.1, round1 ((p.2 : Rat) / (n : Rat) * 100), p.2,
              statsSubRowsFor df p.1⟩⟩

/-! ### Conversation-metrics panel: `display_conversation_metrics`
(lines 95-189) -/

/-- Chronological order on timestamps (`sort_values('date')`, line 133). -/
def tsLe (a b : Timestamp) : Prop :=
  a.day < b.day ∨ (a.day = b.day ∧ a.frac ≤ b.frac)

instance : DecidableRel tsLe := fun a b =>
  inferInstanceAs (Decidable (a.day < b.day ∨ (a.day = b.day ∧ a.frac ≤ b.frac)))

instance : IsTotal Timestamp tsLe := by
  constructor
  intro a b
  rcases lt_trichotomy a.day b.day with h | h | h
  · exact Or.inl (Or.inl h)
  · rcases le_total a.frac b.frac with hf | hf
    · exact Or.inl (Or.inr ⟨h, hf⟩)
    · exact Or.inr (Or.inr ⟨h.symm, hf⟩)
  · exact Or.inr (Or.inl h)

instance : IsTrans Timestamp tsLe := by
  constructor
  intro a b c hab hbc
  rcases hab with h1 | ⟨h1, hf1⟩
  · rcases hbc with h2 | ⟨h2, _⟩
    · exact Or.inl (h1.trans h2)
    · exact Or.inl (h2 ▸ h1)
  · rcases hbc with h2 | ⟨h2, hf2⟩
    · exact Or.inl (h1 ▸ h2)
    · exact Or.inr ⟨h1.trans h2, hf1.trans hf2⟩

/-- One line of the daily table: day, conversation count, summed
`turn_count` (lines 123-126). -/
structure DailyRow where
  date : Timestamp
  conversations : Nat
  messages : Nat
deriving DecidableEq, Repr

/-- Output of the conversation-metrics panel. -/
structure ConvOut where
  total_conversations : Nat
  total_messages : Nat
  daily : List DailyRow
deriving DecidableEq, Repr

/-- The normalized dates the panel groups by (after the line-111
re-parse/normalize of the `date` column). -/
def convDays (df : Dataset) : List Timestamp :=
  (df.rows.map fun r => r.date.normalize).dedup

/-- `display_conversation_metrics` (lines 95-189).  The two bar charts
repeat the daily table's columns and are not modelled separately. -/
def display_conversation_metrics (df : Dataset) : PanelResult ConvOut :=
  if df.rows.isEmpty then
    .info "📈 Aucune donnée disponible pour les métriques de conversation."
  else
    let missing := ["date", "conversationId", "turn_count"].filter
      (fun c => c ∉ df.cols)
    if missing ≠ [] then
      .info ("📈 Certaines colonnes requises ne sont pas disponibles : "
        ++ String.intercalate ", " missing)
    else
      .render ⟨df.rows.length,
        (df.rows.map fun r => r.turn_count).sum,
        (List.insertionSort tsLe (convDays df)).map fun d =>
          ⟨d,
           (df.rows.filter fun r => r.date.normalize = d).length,
           ((df.rows.filter fun r => r.date.normalize = d).map
             fun r => r.turn_count).sum⟩⟩

/-- The dataset as the panel leaves it: `display_conversation_metrics` is
the only panel that assigns into `df` — line 111 rewrites the `date` column
with `pd.to_datetime(df['date'], format='ISO8601').dt.normalize()` (an
identity on the day part of already-parsed dates, but it zeroes any
time-of-day part).  The rewrite happens inside the `try`, after both
guards. -/
def dfAfter_display_conversation_metrics (df : Dataset) : Dataset :=
  if df.rows.isEmpty then df
  else
    let missing := ["date", "conversationId", "turn_count"].filter
      (fun c => c ∉ df.cols)
    if missing ≠ [] then df
    else ⟨df.cols, df.rows.map fun r => r.setDate r.date.normalize⟩

/-- `display_statistics` contains no assignment into `df`. -/
def dfAfter_display_statistics (df : Dataset) : Dataset := df

/-- `display_default_stats` contains no assignment into `df`. -/
def dfAfter_display_default_stats (df : Dataset) : Dataset := df

/-- `display_formulaire_stats` contains no assignment into `df`. -/
def dfAfter_display_formulaire_stats (df : Dataset) : Dataset := df

/-- `display_satisfaction_metrics` contains no assignment into `df`. -/
def dfAfter_display_satisfaction_metrics (df : Dataset) : Dataset := df

/-- `display_hot_topic_stats` contains no assignment into `df`. -/
def dfAfter_display_hot_topic_stats (df : Dataset) : Dataset := df

/-- `display_language_analysis` contains no assignment into `df`. -/
def dfAfter_display_language_analysis (df : Dataset) : Dataset := df

/-- `display_url_and_device_stats` contains no assignment into `df`. -/
def dfAfter_display_url_and_device_stats (df : Dataset) : Dataset := df

/-! ### Default-response panel: `display_default_stats` (lines 234-321) -/

/-- One line of the per-(theme, sous-theme) default cross-table
(lines 262-288). -/
structure DefaultThemeRow where
  theme : String
  sous : String
  conversations : Nat
  total_defaults : Nat
  pourcentage : Rat
deriving DecidableEq, Repr

/-- Output of the default-response panel. -/
structure DefaultOut where
  total_defaults : Nat
  default_rate : Rat
  avg_defaults : Rat
  themeTable : Option (List DefaultThemeRow)
deriving DecidableEq, Repr

/-- The `(theme, sous)` group keys of rows with `default_count > 0`
(line 262; pandas drops rows whose key is `NaN`). -/
def defaultPairs (df : Dataset) : List (String × String) :=
  (df.rows.filter fun r => 0 < r.default_count).filterMap fun r =>
    match r.theme_principal, r.sous_theme with
    | some t, some s => some (t, s)
    | _, _ => none

/-- Group aggregation for one `(theme, sous)` pair: count of conversations
with defaults and sum of their `default_count` (lines 262-266). -/
def defaultAgg (df : Dataset) (t s : String) : Nat × Nat :=
  let grp := (df.rows.filter fun r => 0 < r.default_count).filter fun r =>
    r.theme_principal = some t ∧ r.sous_theme = some s
  (grp.length, (grp.map fun r => r.default_count).sum)

/-- `display_default_stats` (lines 234-321). -/
def display_default_stats (df : Dataset) : PanelResult DefaultOut :=
  if df.rows.isEmpty ∨ "default_count" ∉ df.cols then
    .info "🤖 Aucune donnée disponible pour les statistiques des réponses par défaut."
  else
    let totalDefaults := (df.rows.map fun r => r.default_count).sum
    if totalDefaults = 0 then
      .info "Aucune réponse par défaut n\x27a été détectée."
    else
      let n := df.rows.length
      let withDefaults := (df.rows.filter fun r => 0 < r.default_count).length
      .render ⟨totalDefaults,
        (withDefaults : Rat) / (n : Rat) * 100,
        ((df.rows.map fun r => r.default_count).sum : Rat) / (n : Rat),
        if "theme_principal" ∈ df.cols ∧ "sous_theme" ∈ df.cols then
          some ((sortDescBy (fun p => (defaultAgg df p.1 p.2).2)
              (defaultPairs df).dedup).map fun p =>
            ⟨p.1, p.2, (defaultAgg df p.1 p.2).1, (defaultAgg df p.1 p.2).2,
             round1 (((defaultAgg df p.1 p.2).2 : Rat) / (totalDefaults : Rat) * 100)⟩)
        else none⟩

/-! ### Form-funnel panel: `display_formulaire_stats` (lines 323-378) -/

/-- The flattened form entries across all rows (lines 333-342): each row's
parsed `formulaire_data` items, in row order. -/
def flatEntries (df : Dataset) : List FormEntry :=
  df.rows.flatMap fun r => r.formulaire_data.getD []

/-- The distinct form names the summary groups by (line 349). -/
def formNames (df : Dataset) : List String :=
  ((flatEntries df).map fun e => e.name).dedup

/-- Summed `triggers` of one form name (lines 349-352). -/
def trigFor (df : Dataset) (n : String) : Nat :=
  (((flatEntries df).filter fun e => e.name = n).map fun e => e.triggers).sum

/-- Summed `completions` of one form name (lines 349-352). -/
def compFor (df : Dataset) (n : String) : Nat :=
  (((flatEntries df).filter fun e => e.name = n).map fun e => e.completions).sum

/-- `completion_rate` of one form (lines 354-357):
`(completions / triggers).fillna(0)` — pandas integer-column division,
`NaN` filled with 0 afterwards. -/
def completion_rate (df : Dataset) (n : String) : PdFloat :=
  (pdDivNat (compFor df n) (trigFor df n)).fillna 0

/-- `formulaire_summary['triggers'].sum()` (line 366). -/
def total_triggers (df : Dataset) : Nat :=
  ((formNames df).map (trigFor df)).sum

/-- `formulaire_summary['completions'].sum()` (line 367). -/
def total_completions (df : Dataset) : Nat :=
  ((formNames df).map (compFor df)).sum

/-- `global_completion_rate` (lines 368-370): a Python conditional, not a
pandas division, so the `triggers = 0` case is an exact `0`. -/
def global_completion_rate (df : Dataset) : Rat :=
  if 0 < total_triggers df then
    (total_completions df : Rat) / (total_triggers df : Rat)
  else 0

/-- One line of the per-form summary. -/
structure FormSummaryRow where
  name : String
  triggers : Nat
  completions : Nat
  rate : PdFloat
deriving DecidableEq, Repr

/-- Output of the form-funnel panel. -/
structure FormOut where
  table : List FormSummaryRow
  totalTriggers : Nat
  totalCompletions : Nat
  globalRate : Rat
deriving DecidableEq, Repr

/-- `display_formulaire_stats` (lines 323-378). -/
def display_formulaire_stats (df : Dataset) : PanelResult FormOut :=
  if df.rows.isEmpty ∨ "formulaire_data" ∉ df.cols then
    .info "📝 Aucune donnée disponible pour les statistiques des formulaires."
  else if (flatEntries df).isEmpty then
    .info "Aucun formulaire n\x27a été utilisé."
  else
    .render ⟨(formNames df).map fun n =>
        ⟨n, trigFor df n, compFor df n, completion_rate df n⟩,
      total_triggers df, total_completions df, global_completion_rate df⟩

/-! ### Satisfaction panel: `display_satisfaction_metrics` (lines 380-564) -/

/-- One line of a per-sub-theme feedback table (lines 430-446 and
498-514). -/
structure SatThemeRow where
  sous : String
  fbNeg : Nat
  fbPos : Nat
  total : Nat
  rate : Rat
deriving DecidableEq, Repr

/-- Output of the satisfaction panel. -/
structure SatOut where
  negative_rate : Rat
  total_votes : Nat
  total_positive : Nat
  total_negative : Nat
  negByTheme : Option (List SatThemeRow)
  posByTheme : Option (List SatThemeRow)
deriving DecidableEq, Repr

/-- The distinct `sous_theme` group keys (`groupby('sous_theme')` drops
`NaN` keys). -/
def sousKeys (df : Dataset) : List String :=
  (df.rows.filterMap fun r => r.sous_theme).dedup

/-- Summed negative feedback of one sub-theme. -/
def sousNeg (df : Dataset) (s : String) : Nat :=
  ((df.rows.filter fun r => r.sous_theme = some s).map
    fun r => r.feedbackNegative).sum

/-- Summed positive feedback of one sub-theme. -/
def sousPos (df : Dataset) (s : String) : Nat :=
  ((df.rows.filter fun r => r.sous_theme = some s).map
    fun r => r.feedbackPositive).sum

/-- Sub-themes with at least one negative vote, sorted descending by
negative count, with their share of their own total feedback
(lines 430-446). -/
def negThemeTable (df : Dataset) : List SatThemeRow :=
  (sortDescBy (sousNeg df) ((sousKeys df).filter fun s => 0 < sousNeg df s)).map
    fun s =>
      ⟨s, sousNeg df s, sousPos df s, sousNeg df s + sousPos df s,
       round1 ((sousNeg df s : Rat) / ((sousPos df s + sousNeg df s : Nat) : Rat) * 100)⟩

/-- Sub-themes with at least one positive vote, sorted descending by
positive count (lines 498-514). -/
def posThemeTable (df : Dataset) : List SatThemeRow :=
  (sortDescBy (sousPos df) ((sousKeys df).filter fun s => 0 < sousPos df s)).map
    fun s =>
      ⟨s, sousNeg df s, sousPos df s, sousPos df s + sousNeg df s,
       round1 ((sousPos df s : Rat) / ((sousPos df s + sousNeg df s : Nat) : Rat) * 100)⟩

/-- `display_satisfaction_metrics` (lines 380-564). -/
def display_satisfaction_metrics (df : Dataset) : PanelResult SatOut :=
  if df.rows.isEmpty then
    .info "😊 Aucune donnée disponible pour les métriques de satisfaction."
  else
    let missing := ["feedbackPositive", "feedbackNegative"].filter
      (fun c => c ∉ df.cols)
    if missing ≠ [] then
      .info ("😊 Certaines colonnes de feedback ne sont pas disponibles : "
        ++ String.intercalate ", " missing)
    else
      let n : Nat := df.rows.length
      let totalNeg : Nat := (df.rows.map fun r => r.feedbackNegative).sum
      let totalPos : Nat := (df.rows.map fun r => r.feedbackPositive).sum
      if totalNeg + totalPos = 0 then
        .info "Aucun feedback n\x27a été enregistré."
      else
        .render ⟨(if 0 < n then (totalNeg : Rat) / (n : Rat) * 100 else 0),
          totalNeg + totalPos, totalPos, totalNeg,
          if "sous_theme" ∈ df.cols then some (negThemeTable df) else none,
          if "sous_theme" ∈ df.cols then some (posThemeTable df) else none⟩

/-! ### Hot-topic panel: `display_hot_topic_stats` (lines 566-659) -/

/-- The rows flagged `is_hot_topic` (line 600).  Their number equals
`df['is_hot_topic'].sum()` (line 576), a sum of booleans. -/
def flaggedRows (df : Dataset) : List Row :=
  df.rows.filter fun r => r.is_hot_topic

/-- The `hot_topic_name` values of flagged rows that `value_counts()`
tallies (lines 600 and 623): `value_counts` silently drops `NaN` names. -/
def namedTopics (df : Dataset) : List String :=
  (flaggedRows df).filterMap fun r => r.hot_topic_name

/-- The count of one hot-topic name among flagged rows. -/
def hotNameCount (df : Dataset) (nm : String) : Nat :=
  (namedTopics df).count nm

/-- `total_hot_topics = hot_topic_counts.sum()` (line 624): the summed
name counts — only flagged rows with a non-null name contribute. -/
def total_hot_topics (df : Dataset) : Nat :=
  (((namedTopics df).dedup).map (hotNameCount df)).sum

/-- One line of the hot-topic detail table (lines 627-635). -/
structure HotTableRow where
  rang : Nat
  name : String
  clics : Nat
  pctHot : Rat
  pctConv : Rat
deriving DecidableEq, Repr

/-- Output of the hot-topic panel. -/
structure HotOut where
  hot_topic_conversations : Nat
  total_conversations : Nat
  hot_topic_rate : Rat
  totalHot : Nat
  table : List HotTableRow
deriving DecidableEq, Repr

/-- `display_hot_topic_stats` (lines 566-659).  Note the empty/missing-column
guard (lines 568-569) is a bare `return` with no message. -/
def display_hot_topic_stats (df : Dataset) : PanelResult HotOut :=
  if df.rows.isEmpty ∨ "is_hot_topic" ∉ df.cols ∨ "hot_topic_name" ∉ df.cols then
    .silent
  else
    let total := df.rows.length
    let flagged := (flaggedRows df).length
    if flagged = 0 then .info "Aucun hot topic n\x27a été détecté."
    else
      .render ⟨flagged, total, (flagged : Rat) / (total : Rat) * 100,
        total_hot_topics df,
        ((sortDescBy (fun p => p.2)
            (((namedTopics df).dedup).map fun nm => (nm, hotNameCount df nm))).enum).map
          fun p =>
            ⟨p.1 + 1, p.2.1, p.2.2,
             round1 ((p.2.2 : Rat) / (total_hot_topics df : Rat) * 100),
             round1 ((p.2.2 : Rat) / (total : Rat) * 100)⟩⟩

/-! ### Language panel: `display_language_analysis` (lines 661-812) -/

/-- `language_data` (line 678): rows whose `language_normalized` is
non-null and not the empty string. -/
def langRows (df : Dataset) : List Row :=
  df.rows.filter fun r =>
    match r.language_normalized with
    | some l => l ≠ ""
    | none => false

/-- The language value of every kept row. -/
def langValues (df : Dataset) : List String :=
  (langRows df).filterMap fun r => r.language_normalized

/-- The distinct languages `value_counts()` tallies (line 685). -/
def langKeys (df : Dataset) : List String :=
  (langValues df).dedup

/-- One language's percentage share of the non-null subset (line 689). -/
def langPct (df : Dataset) (l : String) : Rat :=
  ((langValues df).count l : Rat) / ((langRows df).length : Rat) * 100

/-- `major_languages` (line 690): languages with share `>= 1.0`%. -/
def majorLangs (df : Dataset) : List String :=
  (langKeys df).filter fun l => 1 ≤ langPct df l

/-- `minor_languages` (line 691): languages with share `< 1.0`%. -/
def minorLangs (df : Dataset) : List String :=
  (langKeys df).filter fun l => langPct df l < 1

/-- `minor_languages.sum()` (line 696). -/
def autresSum (df : Dataset) : Rat :=
  ((minorLangs df).map (langPct df)).sum

/-- pandas label assignment `series['Autres'] = v` (line 696): replaces the
first entry with that key, otherwise appends. -/
def upsert (m : List (String × Rat)) (k : String) (v : Rat) :
    List (String × Rat) :=
  match m with
  | [] => [(k, v)]
  | (k0, v0) :: rest => if k0 = k then (k, v) :: rest else (k0, v0) :: upsert rest k v

/-- `language_counts` (lines 694-696): the major languages' shares with an
`'Autres'` entry carrying the summed minor shares when any language falls
below 1%. -/
def language_counts (df : Dataset) : List (String × Rat) :=
  let majors := (majorLangs df).map fun l => (l, langPct df l)
  if (minorLangs df).isEmpty then majors
  else upsert majors "Autres" (autresSum df)

/-- Output of the language panel: the share table and the back-converted
display counts (line 699).  The per-language sub-theme drill-down
(lines 747-809) only re-renders subsets of the same data and is not part
of any claim, so it is not carried in the output. -/
structure LangOut where
  shares : List (String × Rat)
  displayCounts : List (String × Int)
deriving DecidableEq, Repr

/-- `display_language_analysis` (lines 661-812). -/
def display_language_analysis (df : Dataset) : PanelResult LangOut :=
  if df.rows.isEmpty then
    .info "🌍 Aucune donnée disponible pour l\x27analyse des langues."
  else if "language_normalized" ∉ df.cols then
    .info "Colonne \x27language_normalized\x27 non trouvée - cette analyse n\x27est pas disponible"
  else if (langRows df).isEmpty then
    .info "Aucune donnée de langue disponible"
  else
    .render ⟨language_counts df,
      (language_counts df).map fun p =>
        (p.1, round (p.2 / 100 * ((langRows df).length : Rat)))⟩

/-! ### URL/device panel: `display_url_and_device_stats` (lines 814-934) -/

/-- Python `str.split(',')` on the character list of a cell. -/
def splitChar (sep : Char) (cs : List Char) : List (List Char) :=
  match cs with
  | [] => [[]]
  | c :: rest =>
    let r := splitChar sep rest
    if c = sep then [] :: r
    else
      match r with
      | [] => [[c]]
      | g :: gs => (c :: g) :: gs

/-- The whitespace set of Python `str.strip()`. -/
def isPySpace (c : Char) : Bool :=
  c = ' ' ∨ c = '\t' ∨ c = '\n' ∨ c = '\r' ∨ c = '\x0b' ∨ c = '\x0c'

/-- Python `str.strip()`: drop leading and trailing whitespace. -/
def pyStrip (cs : List Char) : List Char :=
  ((cs.dropWhile isPySpace).reverse.dropWhile isPySpace).reverse

/-- Line 846: `[url.strip() for url in str(urls_cell).split(',') if url.strip()]`
— split the cell on commas, strip each fragment, keep the non-empty ones. -/
def splitUrls (cell : String) : List String :=
  ((splitChar ',' cell.data).map fun f => String.mk (pyStrip f)).filter
    fun u => u ≠ ""

/-- The fragments one row contributes (lines 843-846): nothing when the
cell is null (`pd.notna`) or empty (falsy). -/
def rowFragments (r : Row) : List String :=
  match r.urls with
  | none => []
  | some c => if c = "" then [] else splitUrls c

/-- Every URL occurrence across the dataset, row by row. -/
def allFragments (df : Dataset) : List String :=
  df.rows.flatMap rowFragments

/-- One step of the tally `url_counts[url] = url_counts.get(url, 0) + 1`
(line 849) on a Python dict kept in insertion order. -/
def bump (m : List (String × Nat)) (u : String) : List (String × Nat) :=
  match m with
  | [] => [(u, 1)]
  | (k, v) :: rest => if k = u then (k, v + 1) :: rest else (k, v) :: bump rest u

/-- `url_counts` (lines 840-849): the tally dict after all rows. -/
def url_counts (df : Dataset) : List (String × Nat) :=
  (allFragments df).foldl bump []

/-- `top_urls` (line 853): items sorted descending by count, first 10. -/
def top_urls (df : Dataset) : List (String × Nat) :=
  (sortDescBy (fun p => p.2) (url_counts df)).take 10

/-- The displayed URL table with its 1-based rank column (lines 856-860). -/
def url_table (df : Dataset) : List (Nat × String × Nat) :=
  (top_urls df).enum.map fun p => (p.1 + 1, p.2.1, p.2.2)

/-- `total_urls = sum(url_counts.values())` (line 873). -/
def total_urls (df : Dataset) : Nat :=
  ((url_counts df).map fun p => p.2).sum

/-- `unique_urls = len(url_counts)` (line 874). -/
def unique_urls (df : Dataset) : Nat :=
  (url_counts df).length

/-- The device values `value_counts()` tallies (line 890; `NaN` dropped). -/
def deviceValues (df : Dataset) : List String :=
  df.rows.filterMap fun r => r.device

/-- One side (column) of the URL/device panel: its own informational
message or its rendered content. -/
structure UrlDeviceOut where
  urlSide : PanelResult (List (Nat × String × Nat) × Nat × Nat)
  deviceSide : PanelResult (List (String × Nat × Rat))
deriving DecidableEq

/-- `display_url_and_device_stats` (lines 814-934). -/
def display_url_and_device_stats (df : Dataset) : PanelResult UrlDeviceOut :=
  if df.rows.isEmpty then
    .info "🔗 Aucune donnée disponible pour l\x27analyse des URLs et appareils."
  else if "urls" ∉ df.cols ∧ "device" ∉ df.cols then
    .info "Colonnes \x27urls\x27 et \x27device\x27 non trouvées - cette analyse n\x27est pas disponible"
  else
    .render
      ⟨if "urls" ∉ df.cols then .info "Colonne \x27urls\x27 non trouvée"
        else if (url_counts df).isEmpty then
          .info "Aucune URL trouvée dans les données"
        else .render (url_table df, total_urls df, unique_urls df),
       if "device" ∉ df.cols then .info "Colonne \x27device\x27 non trouvée"
        else if (deviceValues df).isEmpty then
          .info "Aucune donnée d\x27appareil trouvée"
        else .render (((deviceValues df).dedup).map fun d =>
          (d, (deviceValues df).count d,
           round1 (((deviceValues df).count d : Rat) / ((deviceValues df).length : Rat) * 100)))⟩

/-! ### Concrete datasets and panel bodies used by witnesses and
counterexamples -/

/-- All columns of a fully-featured upload: the 8 required ones plus every
optional column the panels know about. -/
def allCols : List String :=
  requiredColumns ++
    [ "language_normalized", "is_hot_topic", "hot_topic_name"
    , "urls", "device", "formulaire_data" ]

/-- A panel body that raises. -/
def bodyFail : Dataset → Except String Nat := fun _ => .error "boom"

/-- A panel body that computes a metric. -/
def bodyOk : Dataset → Except String Nat := fun df => .ok df.rows.length

/-- A two-panel dashboard whose first panel body raises. -/
def demoPanels : List ((Dataset → Except String Nat) × String) :=
  [(bodyFail, "f0"), (bodyOk, "f1")]

/-- An empty upload carrying every column. -/
def emptyAllDF : Dataset := ⟨allCols, []⟩

/-- One row whose `formulaire_data` reports 0 triggers but 1 completion for
form `f`. -/
def dfC4 : Dataset := ⟨allCols, [baseRow.setForm (some [⟨"f", 0, 1⟩])]⟩

/-- The spec scenario: `{"signup": {"triggers": 2, "completions": 1}}`
repeated on two rows. -/
def dfForm : Dataset :=
  ⟨allCols, [ baseRow.setForm (some [⟨"signup", 2, 1⟩])
            , baseRow.setForm (some [⟨"signup", 2, 1⟩]) ]⟩

/-- The spec scenario: 3 rows, `feedbackPositive=[1,0,2]`,
`feedbackNegative=[0,1,0]`. -/
def df3 : Dataset :=
  ⟨requiredColumns, [ baseRow.setFeedback 1 0
                    , baseRow.setFeedback 0 1
                    , baseRow.setFeedback 2 0 ]⟩

/-- 100 French rows, one German row (share 100/101 < 1%), one
empty-string-language row and one null-language row. -/
def dfLang : Dataset :=
  ⟨allCols, List.replicate 100 (baseRow.setLang (some "fr")) ++
    [baseRow.setLang (some "de"), baseRow.setLang (some ""), baseRow]⟩

/-- One row whose `urls` cell is `"a, a ,b"`. -/
def dfUrl : Dataset := ⟨allCols, [baseRow.setUrls (some "a, a ,b")]⟩

/-- Four themed rows: theme `A` with sub-themes `x, x, y`; theme `B` with
sub-theme `z`. -/
def dfTheme : Dataset :=
  ⟨requiredColumns, [ baseRow.setThemes (some "A") (some "x")
                    , baseRow.setThemes (some "A") (some "x")
                    , baseRow.setThemes (some "A") (some "y")
                    , baseRow.setThemes (some "B") (some "z") ]⟩

/-- The theme panel's output on `dfTheme`. -/
def outTheme : StatsOut :=
  ⟨4, 100,
   [ ⟨"A", 75, 3, [⟨"x", 50, 2⟩, ⟨"y", 25, 1⟩]⟩
   , ⟨"B", 25, 1, [⟨"z", 25, 1⟩]⟩ ]⟩

/-- The first block of `outTheme`. -/
def blockA : StatsBlock := ⟨"A", 75, 3, [⟨"x", 50, 2⟩, ⟨"y", 25, 1⟩]⟩

/-- The fraction 1/2, as a reduced-form literal. -/
def halfDay : Rat := ⟨1, 2, by decide, by decide⟩

/-- One row whose parsed date has a nonzero time-of-day part (half a
day). -/
def dfBadDate : Dataset := ⟨requiredColumns, [baseRow.setDate ⟨0, halfDay⟩]⟩

/-- One row with a day-normalized date, as `main` produces at load. -/
def dfGoodDate : Dataset := ⟨requiredColumns, [baseRow.setDate ⟨737000, 0⟩]⟩

/-- Three rows: one flagged hot-topic named `A`, one flagged with a null
name, one unflagged. -/
def dfHot : Dataset :=
  ⟨allCols, [baseRow.setHot true (some "A"), baseRow.setHot true none, baseRow]⟩

end AppClientLight

open AppClientLight

/-- C1: schema validation passes iff all 8 required columns are present,
and the result depends only on which names are column names — hence it is
independent of column order and of any optional columns. -/
theorem C1_schema_validation (cols cols' : List String)
    (hsub : ∀ c ∈ cols, c ∈ cols') (hsub' : ∀ c ∈ cols', c ∈ cols) :
    (is_processed_file cols = true ↔ ∀ c ∈ requiredColumns, c ∈ cols)
      ∧ is_processed_file cols = is_processed_file cols' := by
  have hiff : ∀ L : List String,
      (is_processed_file L = true ↔ ∀ c ∈ requiredColumns, c ∈ L) := by
    intro L
    simp [is_processed_file, List.all_eq_true, List.elem_iff]
  refine ⟨hiff cols, ?_⟩
  rw [Bool.eq_iff_iff, hiff cols, hiff cols']
  exact ⟨fun h c hc => hsub c (h c hc), fun h c hc => hsub' c (h c hc)⟩

/-- Witness for C1 at a concrete column list: the required columns in shuffled
order plus an optional column validate, and so does a permutation of them. -/
theorem C1_schema_validation_witness :
    (∀ c ∈ [ "date", "sous_theme", "theme_principal", "conversationId"
           , "turn_count", "default_count", "feedbackPositive"
           , "feedbackNegative", "language_normalized" ],
          c ∈ [ "language_normalized", "feedbackNegative", "feedbackPositive"
              , "default_count", "turn_count", "conversationId"
              , "theme_principal", "sous_theme", "date" ])
    ∧ ((is_processed_file
          [ "date", "sous_theme", "theme_principal", "conversationId"
          , "turn_count", "default_count", "feedbackPositive"
          , "feedbackNegative", "language_normalized" ] = true
        ↔ ∀ c ∈ requiredColumns,
            c ∈ [ "date", "sous_theme", "theme_principal", "conversationId"
                , "turn_count", "default_count", "feedbackPositive"
                , "feedbackNegative", "language_normalized" ])
      ∧ is_processed_file
          [ "date", "sous_theme", "theme_principal", "conversationId"
          , "turn_count", "default_count", "feedbackPositive"
          , "feedbackNegative", "language_normalized" ]
        = is_processed_file
          [ "language_normalized", "feedbackNegative", "feedbackPositive"
          , "default_count", "turn_count", "conversationId"
          , "theme_principal", "sous_theme", "date" ]) :=
  ⟨by decide, C1_schema_validation _ _ (by decide) (by decide)⟩

/-- C2: the `try/except` boundary of every panel converts any raised error
into the panel's informational notice and never re-raises, and in `main`'s
dashboard loop each panel's entry depends only on its own body, so one
failing panel cannot keep another from being computed. -/
theorem C2_panel_isolation {α : Type}
    (panels : List ((Dataset → Except String α) × String)) (df : Dataset)
    (i : Nat) (body : Dataset → Except String α) (fb : String)
    (h : panels[i]? = some (body, fb)) :
    (runDashboard panels df)[i]? = some (tryBoundary fb (body df))
      ∧ (∀ e, body df = .error e → tryBoundary fb (body df) = .info fb)
      ∧ (∀ a, body df = .ok a → tryBoundary fb (body df) = .render a) := by
  refine ⟨?_, ?_, ?_⟩
  · simp [runDashboard, List.getElem?_map, h]
  · intro e he
    simp [tryBoundary, he]
  · intro a ha
    simp [tryBoundary, ha]

/-- Witness for C2: a dashboard whose first panel body raises; its entry is
the informational fallback, computed independently of the other panel. -/
theorem C2_panel_isolation_witness :
    demoPanels[0]? = some (bodyFail, "f0")
      ∧ ((runDashboard demoPanels emptyAllDF)[0]?
            = some (tryBoundary "f0" (bodyFail emptyAllDF))
        ∧ (∀ e, bodyFail emptyAllDF = .error e →
            tryBoundary "f0" (bodyFail emptyAllDF) = .info "f0")
        ∧ (∀ a, bodyFail emptyAllDF = .ok a →
            tryBoundary "f0" (bodyFail emptyAllDF) = .render a)) :=
  ⟨rfl, C2_panel_isolation demoPanels emptyAllDF 0 bodyFail "f0" rfl⟩

/-- C3 (amended): on an empty dataset every panel returns without raising
and renders no table or chart; the seven panels with an empty-input notice
emit their informational message, while the hot-topic panel's empty guard
(lines 568-569) is a bare `return` that emits nothing at all. -/
theorem C3_empty_dataset (cols : List String) :
    display_statistics ⟨cols, []⟩
        = .info "📊 Aucune donnée disponible pour les statistiques des thèmes."
      ∧ display_conversation_metrics ⟨cols, []⟩
        = .info "📈 Aucune donnée disponible pour les métriques de conversation."
      ∧ display_default_stats ⟨cols, []⟩
        = .info "🤖 Aucune donnée disponible pour les statistiques des réponses par défaut."
      ∧ display_formulaire_stats ⟨cols, []⟩
        = .info "📝 Aucune donnée disponible pour les statistiques des formulaires."
      ∧ display_satisfaction_metrics ⟨cols, []⟩
        = .info "😊 Aucune donnée disponible pour les métriques de satisfaction."
      ∧ display_language_analysis ⟨cols, []⟩
        = .info "🌍 Aucune donnée disponible pour l\x27analyse des langues."
      ∧ display_url_and_device_stats ⟨cols, []⟩
        = .info "🔗 Aucune donnée disponible pour l\x27analyse des URLs et appareils."
      ∧ display_hot_topic_stats ⟨cols, []⟩ = .silent :=
  ⟨rfl, rfl, rfl, rfl, rfl, rfl, rfl, rfl⟩

/-- Counterexample to C3 as stated: on an empty dataset the hot-topic panel
emits no informational message — it returns silently. -/
theorem C3_hot_topic_counterexample :
    display_hot_topic_stats ⟨allCols, []⟩ = PanelResult.silent
      ∧ (display_hot_topic_stats ⟨allCols, []⟩).isInfo = false :=
  ⟨rfl, rfl⟩

/-- Counterexample to C4 as stated: a form whose summed triggers are 0 but
whose summed completions are positive gets `inf` (pandas `1/0`), not 0 —
`.fillna(0)` only repairs the `0/0 = NaN` case. -/
theorem C4_zero_trigger_counterexample :
    trigFor dfC4 "f" = 0
      ∧ completion_rate dfC4 "f" = PdFloat.inf
      ∧ PdFloat.inf ≠ PdFloat.val 0 := by
  refine ⟨?_, ?_, ?_⟩ <;> decide

/-- C4 (amended): the per-form completion rate is `completions / triggers`
whenever triggers are positive and never a division error; with 0 triggers
it is exactly 0 only when the summed completions are also 0 (which the
upstream `completions ≤ triggers` contract guarantees), and `inf`
otherwise.  The global rate is guarded by a Python conditional, so it is
total completions over total triggers and exactly 0 on 0 triggers. -/
theorem C4_completion_rates (df : Dataset) (n : String) :
    (0 < trigFor df n →
      completion_rate df n
        = .val ((compFor df n : Rat) / (trigFor df n : Rat)))
      ∧ (trigFor df n = 0 → compFor df n = 0 → completion_rate df n = .val 0)
      ∧ ((∀ e ∈ flatEntries df, e.completions ≤ e.triggers) →
          trigFor df n = 0 → completion_rate df n = .val 0)
      ∧ (total_triggers df = 0 → global_completion_rate df = 0)
      ∧ (0 < total_triggers df →
          global_completion_rate df
            = (total_completions df : Rat) / (total_triggers df : Rat)) := by
  have hcomp0 : trigFor df n = 0 → compFor df n = 0 →
      completion_rate df n = .val 0 := by
    intro ht hc
    simp [completion_rate, pdDivNat, ht, hc, PdFloat.fillna]
  refine ⟨?_, hcomp0, ?_, ?_, ?_⟩
  · intro ht
    simp [completion_rate, pdDivNat, Nat.pos_iff_ne_zero.mp ht, PdFloat.fillna]
  · intro hinv ht
    refine hcomp0 ht ?_
    have hall : ∀ e ∈ (flatEntries df).filter (fun e => e.name = n),
        e.triggers = 0 := by
      intro e he
      have := List.sum_eq_zero_iff.mp ht
      exact this e.triggers (List.mem_map_of_mem _ he)
    refine List.sum_eq_zero_iff.mpr ?_
    intro x hx
    obtain ⟨e, he, rfl⟩ := List.mem_map.mp hx
    have h1 : e.completions ≤ e.triggers :=
      hinv e (List.mem_of_mem_filter he)
    have h2 := hall e he
    omega
  · intro h0
    simp [global_completion_rate, h0]
  · intro hpos
    simp [global_completion_rate, hpos]

/-- Witness for C4 at the spec's own scenario (two rows of
`{"signup": {"triggers": 2, "completions": 1}}`): 4 triggers, positive, and
the rate is the exact quotient 2/4. -/
theorem C4_completion_rates_witness :
    0 < trigFor dfForm "signup"
      ∧ completion_rate dfForm "signup"
          = PdFloat.val ((compFor dfForm "signup" : Rat) / (trigFor dfForm "signup" : Rat)) :=
  ⟨by decide, (C4_completion_rates dfForm "signup").1 (by decide)⟩

/-- C5: whenever the satisfaction metrics render, `negative_rate` is total
negative feedback over the number of rows (as a percentage, not over total
votes) and `total_votes` is the positive plus the negative sum; on the
spec's 3-row scenario the rate is 1/3 (100/3 as a percentage) with 4 votes
split 3 positive / 1 negative. -/
theorem C5_satisfaction_metrics (df : Dataset) (hne : df.rows ≠ [])
    (hp : "feedbackPositive" ∈ df.cols) (hn : "feedbackNegative" ∈ df.cols)
    (hv : (df.rows.map fun r => r.feedbackNegative).sum
        + (df.rows.map fun r => r.feedbackPositive).sum ≠ 0) :
    (∃ out, display_satisfaction_metrics df = .render out
      ∧ out.negative_rate
          = (((df.rows.map fun r => r.feedbackNegative).sum : Nat) : Rat)
              / (df.rows.length : Rat) * 100
      ∧ out.total_votes = (df.rows.map fun r => r.feedbackNegative).sum
          + (df.rows.map fun r => r.feedbackPositive).sum
      ∧ out.total_positive = (df.rows.map fun r => r.feedbackPositive).sum
      ∧ out.total_negative = (df.rows.map fun r => r.feedbackNegative).sum)
    ∧ display_satisfaction_metrics df3
        = .render ⟨100/3, 4, 3, 1, some [], some []⟩ := by
  constructor
  · have h1 : df.rows.isEmpty = false := by
      simpa [List.isEmpty_iff] using hne
    have h2 : (["feedbackPositive", "feedbackNegative"].filter
        fun c => decide (c ∉ df.cols)) = [] := by
      simp [List.filter, hp, hn]
    have h3 : (0 : Nat) < df.rows.length := List.length_pos.mpr hne
    refine ⟨⟨(((df.rows.map fun r => r.feedbackNegative).sum : Nat) : Rat)
          / (df.rows.length : Rat) * 100,
        (df.rows.map fun r => r.feedbackNegative).sum
          + (df.rows.map fun r => r.feedbackPositive).sum,
        (df.rows.map fun r => r.feedbackPositive).sum,
        (df.rows.map fun r => r.feedbackNegative).sum,
        (if "sous_theme" ∈ df.cols then some (negThemeTable df) else none),
        (if "sous_theme" ∈ df.cols then some (posThemeTable df) else none)⟩,
      ?_, rfl, rfl, rfl, rfl⟩
    simp only [display_satisfaction_metrics, h1, h2, Bool.false_eq_true,
      if_false, ne_eq, not_true_eq_false, ite_false, hv, not_false_eq_true,
      ite_true]
    rw [if_pos h3]
  · show display_satisfaction_metrics df3 = _
    simp only [display_satisfaction_metrics, df3, baseRow, Row.setFeedback,
      requiredColumns, negThemeTable, posThemeTable, sousKeys, sousNeg,
      sousPos, sortDescBy, List.insertionSort, List.filterMap, List.filter,
      List.map, List.sum_cons, List.sum_nil, List.isEmpty_cons, List.dedup_nil]
    norm_num

/-- Witness for C5 at the spec's 3-row scenario. -/
theorem C5_satisfaction_metrics_witness :
    (∃ out, display_satisfaction_metrics df3 = .render out
      ∧ out.negative_rate
          = (((df3.rows.map fun r => r.feedbackNegative).sum : Nat) : Rat)
              / (df3.rows.length : Rat) * 100
      ∧ out.total_votes = (df3.rows.map fun r => r.feedbackNegative).sum
          + (df3.rows.map fun r => r.feedbackPositive).sum
      ∧ out.total_positive = (df3.rows.map fun r => r.feedbackPositive).sum
      ∧ out.total_negative = (df3.rows.map fun r => r.feedbackNegative).sum)
    ∧ display_satisfaction_metrics df3
        = .render ⟨100/3, 4, 3, 1, some [], some []⟩ :=
  C5_satisfaction_metrics df3 (by decide) (by decide) (by decide) (by decide)

/-- Label assignment then lookup: `upsert` stores exactly `v` under `k`. -/
theorem lookup_upsert (m : List (String × Rat)) (k : String) (v : Rat) :
    (upsert m k v).lookup k = some v := by
  induction m with
  | nil => simp [upsert, List.lookup]
  | cons p rest ih =>
    obtain ⟨k0, v0⟩ := p
    by_cases h : k0 = k
    · simp [upsert, h, List.lookup]
    · simp only [upsert, if_neg h, List.lookup]
      have : (k == k0) = false := by
        simpa using fun he => h he.symm
      simp [this, ih]

/-- Every entry of `upsert m k v` is the inserted pair or an entry of
`m`. -/
theorem mem_upsert {m : List (String × Rat)} {k : String} {v : Rat}
    {p : String × Rat} (hp : p ∈ upsert m k v) : p = (k, v) ∨ p ∈ m := by
  induction m with
  | nil => simpa [upsert] using hp
  | cons q rest ih =>
    obtain ⟨k0, v0⟩ := q
    by_cases h : k0 = k
    · simp only [upsert, if_pos h] at hp
      rcases List.mem_cons.mp hp with h1 | h1
      · exact Or.inl h1
      · exact Or.inr (List.mem_cons_of_mem _ h1)
    · simp only [upsert, if_neg h] at hp
      rcases List.mem_cons.mp hp with h1 | h1
      · exact Or.inr (List.mem_cons.mpr (Or.inl h1))
      · rcases ih h1 with h2 | h2
        · exact Or.inl h2
        · exact Or.inr (List.mem_cons_of_mem _ h2)

/-- C6: in the language panel, rows with a null or empty
`language_normalized` are excluded from the denominator's subset; the
synthetic `Autres` entry carries exactly the summed shares of the languages
whose individual share is below 1%, and every language listed under its own
name has a share of at least 1%. -/
theorem C6_language_autres (df : Dataset) (hmin : minorLangs df ≠ []) :
    (language_counts df).lookup "Autres" = some (autresSum df)
      ∧ autresSum df = ((minorLangs df).map (langPct df)).sum
      ∧ (∀ l, l ∈ minorLangs df ↔ l ∈ langKeys df ∧ langPct df l < 1)
      ∧ (∀ p ∈ language_counts df, p.1 ≠ "Autres" →
          p.2 = langPct df p.1 ∧ 1 ≤ p.2)
      ∧ (∀ r ∈ df.rows, (r ∈ langRows df ↔
          ∃ l, r.language_normalized = some l ∧ l ≠ "")) := by
  have hm : (minorLangs df).isEmpty = false := by
    simpa [List.isEmpty_iff] using hmin
  refine ⟨?_, rfl, ?_, ?_, ?_⟩
  · simp only [language_counts, hm, Bool.false_eq_true, if_false]
    exact lookup_upsert _ _ _
  · intro l
    simp [minorLangs, List.mem_filter]
  · intro p hp hne
    have hp' : p = ("Autres", autresSum df) ∨
        p ∈ (majorLangs df).map fun l => (l, langPct df l) := by
      simp only [language_counts, hm, Bool.false_eq_true, if_false] at hp
      exact mem_upsert hp
    rcases hp' with h | h
    · exact absurd (congrArg Prod.fst h) hne
    · obtain ⟨l, hl, rfl⟩ := List.mem_map.mp h
      have := (List.mem_filter.mp hl).2
      exact ⟨rfl, by simpa using this⟩
  · intro r _
    constructor
    · intro hr
      have := (List.mem_filter.mp hr).2
      cases hval : r.language_normalized with
      | none => simp [hval] at this
      | some l =>
        refine ⟨l, rfl, ?_⟩
        simpa [hval] using this
    · rintro ⟨l, hval, hl⟩
      refine List.mem_filter.mpr ⟨‹r ∈ df.rows›, ?_⟩
      simp [hval, hl]

set_option maxRecDepth 100000 in
/-- Witness for C6: 100 French rows against one German row (share
100/101 % < 1%), plus one empty-language and one null-language row. -/
theorem C6_language_autres_witness :
    (language_counts dfLang).lookup "Autres" = some (autresSum dfLang)
      ∧ autresSum dfLang = ((minorLangs dfLang).map (langPct dfLang)).sum
      ∧ (∀ l, l ∈ minorLangs dfLang ↔ l ∈ langKeys dfLang ∧ langPct dfLang l < 1)
      ∧ (∀ p ∈ language_counts dfLang, p.1 ≠ "Autres" →
          p.2 = langPct dfLang p.1 ∧ 1 ≤ p.2)
      ∧ (∀ r ∈ dfLang.rows, (r ∈ langRows dfLang ↔
          ∃ l, r.language_normalized = some l ∧ l ≠ "")) := by
  refine C6_language_autres dfLang ?_
  have hc : (langValues dfLang).count "de" = 1 := by decide
  have hl : (langRows dfLang).length = 101 := by decide
  have hk : "de" ∈ langKeys dfLang := by decide
  refine List.ne_nil_of_mem (a := "de") ?_
  refine List.mem_filter.mpr ⟨hk, ?_⟩
  have hpct : langPct dfLang "de" < 1 := by
    rw [langPct, hc, hl]
    norm_num
  simpa using hpct

/-- One `bump` step looked up: the bumped key gains one, others are
untouched. -/
theorem lookup_bump (m : List (String × Nat)) (u v : String) :
    (bump m u).lookup v
      = if v = u then some ((m.lookup u).getD 0 + 1) else m.lookup v := by
  induction m with
  | nil =>
    by_cases h : v = u
    · simp [bump, List.lookup, h]
    · have hb : (v == u) = false := beq_eq_false_iff_ne.mpr h
      simp [bump, List.lookup, h, hb]
  | cons p rest ih =>
    obtain ⟨k, w⟩ := p
    by_cases hk : k = u
    · subst hk
      by_cases hv : v = k
      · simp [bump, List.lookup, hv]
      · have hb : (v == k) = false := beq_eq_false_iff_ne.mpr hv
        simp [bump, List.lookup, hv, hb]
    · by_cases hv : v = u
      · subst hv
        have hvk : (v == k) = false :=
          beq_eq_false_iff_ne.mpr (fun he => hk he.symm)
        simp [bump, if_neg hk, List.lookup, hvk, ih]
      · by_cases hvk : v = k
        · subst hvk
          simp [bump, if_neg hk, List.lookup, hv]
        · have h1 : (v == k) = false := beq_eq_false_iff_ne.mpr hvk
          simp [bump, if_neg hk, List.lookup, h1, ih, hv]

/-- The dict after tallying a fragment list: each key holds its prior value
plus its number of occurrences in the list. -/
theorem lookup_foldl_bump (l : List String) (m : List (String × Nat))
    (u : String) :
    ((l.foldl bump m).lookup u)
      = if l.count u = 0 then m.lookup u
        else some ((m.lookup u).getD 0 + l.count u) := by
  induction l generalizing m with
  | nil => simp
  | cons c l ih =>
    rw [List.foldl_cons, ih (bump m c), lookup_bump]
    by_cases hc : u = c
    · subst hc
      by_cases h0 : l.count u = 0 <;> simp [h0, List.count_cons] <;> omega
    · by_cases h0 : l.count u = 0 <;>
        simp [hc, h0, List.count_cons] <;> omega

/-- `bump` adds exactly one to the summed dict values. -/
theorem valuesSum_bump (m : List (String × Nat)) (u : String) :
    ((bump m u).map fun p => p.2).sum = (m.map fun p => p.2).sum + 1 := by
  induction m with
  | nil => simp [bump]
  | cons p rest ih =>
    obtain ⟨k, w⟩ := p
    by_cases hk : k = u
    · simp [bump, hk]
      omega
    · simp [bump, if_neg hk, ih]
      omega

/-- Tallying a fragment list adds its length to the summed dict values. -/
theorem valuesSum_foldl_bump (l : List String) (m : List (String × Nat)) :
    ((l.foldl bump m).map fun p => p.2).sum
      = (m.map fun p => p.2).sum + l.length := by
  induction l generalizing m with
  | nil => simp
  | cons c l ih =>
    rw [List.foldl_cons, ih (bump m c), valuesSum_bump, List.length_cons]
    omega

/-- The key list of a bumped dict: unchanged when the key exists, extended
by the new key otherwise. -/
theorem keys_bump (m : List (String × Nat)) (u : String) :
    (bump m u).map (fun p => p.1)
      = if u ∈ m.map (fun p => p.1) then m.map (fun p => p.1)
        else m.map (fun p => p.1) ++ [u] := by
  induction m with
  | nil => simp [bump]
  | cons p rest ih =>
    obtain ⟨k, w⟩ := p
    by_cases hk : k = u
    · simp [bump, hk]
    · have : ¬ u = k := fun he => hk he.symm
      simp only [bump, if_neg hk, List.map_cons, List.mem_cons, this,
        false_or, ih]
      by_cases hmem : u ∈ rest.map (fun p => p.1) <;> simp [hmem]

/-- Membership in the tally dict's keys after a fold. -/
theorem mem_keys_foldl_bump (l : List String) (m : List (String × Nat))
    (v : String) :
    (v ∈ (l.foldl bump m).map (fun p => p.1))
      ↔ v ∈ m.map (fun p => p.1) ∨ v ∈ l := by
  induction l generalizing m with
  | nil => simp
  | cons c l ih =>
    rw [List.foldl_cons, ih (bump m c)]
    rw [keys_bump]
    by_cases hmem : c ∈ m.map (fun p => p.1)
    · simp only [if_pos hmem, List.mem_cons]
      constructor
      · rintro (h | h)
        · exact Or.inl h
        · exact Or.inr (Or.inr h)
      · rintro (h | h | h)
        · exact Or.inl h
        · exact Or.inl (h ▸ hmem)
        · exact Or.inr h
    · simp only [if_neg hmem, List.mem_append, List.mem_singleton,
        List.mem_cons]
      tauto

/-- The tally dict's keys stay duplicate-free. -/
theorem keys_nodup_foldl_bump (l : List String) (m : List (String × Nat))
    (hm : (m.map (fun p => p.1)).Nodup) :
    ((l.foldl bump m).map (fun p => p.1)).Nodup := by
  induction l generalizing m with
  | nil => simpa
  | cons c l ih =>
    rw [List.foldl_cons]
    refine ih (bump m c) ?_
    rw [keys_bump]
    by_cases hmem : c ∈ m.map (fun p => p.1)
    · simpa [hmem] using hm
    · rw [if_neg hmem]
      refine ((List.perm_append_singleton c _).nodup_iff).mpr ?_
      exact List.nodup_cons.mpr ⟨hmem, hm⟩

/-- C7: the URL tally splits each cell on commas, trims fragments, and
counts every non-empty fragment occurrence (repeats inside one cell count
separately — `"a, a ,b"` contributes 2 to `a` and 1 to `b`); the reported
table is the top 10 by descending frequency with 1-based ranks, and the
totals are the total occurrence count and the distinct-URL count. -/
theorem C7_url_tally (df : Dataset) (u : String) :
    (splitUrls "a, a ,b" = ["a", "a", "b"]
      ∧ (url_counts dfUrl).lookup "a" = some 2
      ∧ (url_counts dfUrl).lookup "b" = some 1)
    ∧ ((url_counts df).lookup u
        = if (allFragments df).count u = 0 then none
          else some ((allFragments df).count u))
    ∧ (List.Pairwise (descBy fun p => p.2) (top_urls df)
      ∧ (top_urls df).length ≤ 10
      ∧ (url_table df).map (fun x => x.1) = List.range' 1 (top_urls df).length)
    ∧ total_urls df = (allFragments df).length
    ∧ unique_urls df = (allFragments df).dedup.length := by
  refine ⟨⟨by decide, by decide, by decide⟩, ?_, ⟨?_, ?_, ?_⟩, ?_, ?_⟩
  · rw [url_counts, lookup_foldl_bump]
    simp [List.lookup]
  · exact (List.sorted_insertionSort _ _).sublist (List.take_sublist _ _)
  · simp only [top_urls, List.length_take]
    exact Nat.min_le_left _ _
  · simp only [url_table, List.map_map]
    have h1 : ((fun x : Nat × String × Nat => x.1)
        ∘ fun p : Nat × (String × Nat) => (p.1 + 1, p.2.1, p.2.2))
        = (fun n => n + 1) ∘ Prod.fst := rfl
    rw [h1, ← List.map_map, List.enum_map_fst, List.range'_eq_map_range]
    simp [Nat.add_comm]
  · rw [total_urls, url_counts, valuesSum_foldl_bump]
    simp
  · have hkeys_nodup : ((url_counts df).map (fun p => p.1)).Nodup := by
      refine keys_nodup_foldl_bump _ [] ?_
      simp
    have hmem : ∀ v, v ∈ (url_counts df).map (fun p => p.1)
        ↔ v ∈ (allFragments df).dedup := by
      intro v
      rw [url_counts, mem_keys_foldl_bump]
      simp [List.mem_dedup]
    have hperm := (List.perm_ext_iff_of_nodup hkeys_nodup
      (List.nodup_dedup _)).mpr hmem
    calc unique_urls df
        = ((url_counts df).map (fun p => p.1)).length := by
          rw [unique_urls, List.length_map]
      _ = (allFragments df).dedup.length := hperm.length_eq

/-- Splitting a row list by whether `hot_topic_name` is null: the named and
the null-named rows together account for every row. -/
theorem named_null_partition (l : List Row) :
    (l.filterMap fun r => r.hot_topic_name).length
      + (l.filter fun r => r.hot_topic_name = none).length = l.length := by
  induction l with
  | nil => simp
  | cons r l ih =>
    cases h : r.hot_topic_name with
    | none =>
      simp only [List.filterMap_cons, h, List.filter_cons]
      simp [h, ih]
      omega
    | some nm =>
      simp only [List.filterMap_cons, h, List.filter_cons]
      simp [h, ih]
      omega

/-- C10: a flagged row with a null `hot_topic_name` counts in the
flagged-conversation total and in the overall hot-topic share, but is
dropped from the name distribution (`value_counts` skips `NaN`), so the
per-name percentages are over the named flagged rows only and the summed
name counts can fall strictly short of the flagged-row count. -/
theorem C10_hot_topic_null_names (df : Dataset)
    (h1 : "is_hot_topic" ∈ df.cols) (h2 : "hot_topic_name" ∈ df.cols)
    (hne : df.rows ≠ []) (hfl : (flaggedRows df).length ≠ 0) :
    (∃ out, display_hot_topic_stats df = .render out
      ∧ out.hot_topic_conversations = (flaggedRows df).length
      ∧ out.hot_topic_rate
          = ((flaggedRows df).length : Rat) / (df.rows.length : Rat) * 100
      ∧ out.totalHot = total_hot_topics df
      ∧ ∀ t ∈ out.table,
          t.pctHot = round1 ((t.clics : Rat) / (total_hot_topics df : Rat) * 100))
    ∧ total_hot_topics df
        + ((flaggedRows df).filter fun r => r.hot_topic_name = none).length
        = (flaggedRows df).length
    ∧ (((flaggedRows df).filter fun r => r.hot_topic_name = none).length ≠ 0 →
        total_hot_topics df < (flaggedRows df).length) := by
  have hsum : total_hot_topics df = (namedTopics df).length := by
    show ((namedTopics df).dedup.map (hotNameCount df)).sum = _
    have he : hotNameCount df = fun nm => (namedTopics df).count nm := rfl
    rw [he]
    exact List.sum_map_count_dedup_eq_length _
  have hpart : total_hot_topics df
      + ((flaggedRows df).filter fun r => r.hot_topic_name = none).length
      = (flaggedRows df).length := by
    rw [hsum]
    exact named_null_partition (flaggedRows df)
  refine ⟨?_, hpart, fun hnn => by omega⟩
  have hg1 : ¬ (df.rows.isEmpty = true ∨ "is_hot_topic" ∉ df.cols
      ∨ "hot_topic_name" ∉ df.cols) := by
    simp [List.isEmpty_iff, hne, h1, h2]
  refine ⟨⟨(flaggedRows df).length, df.rows.length,
      ((flaggedRows df).length : Rat) / (df.rows.length : Rat) * 100,
      total_hot_topics df,
      ((sortDescBy (fun p => p.2)
          (((namedTopics df).dedup).map fun nm => (nm, hotNameCount df nm))).enum).map
        fun p => ⟨p.1 + 1, p.2.1, p.2.2,
          round1 ((p.2.2 : Rat) / (total_hot_topics df : Rat) * 100),
          round1 ((p.2.2 : Rat) / (df.rows.length : Rat) * 100)⟩⟩,
    ?_, rfl, rfl, rfl, ?_⟩
  · simp only [display_hot_topic_stats, hg1, if_false, hfl, ite_false]
  · intro t ht
    simp only [List.mem_map] at ht
    obtain ⟨p, _, rfl⟩ := ht
    rfl

/-- Witness for C10: one flagged row named `A`, one flagged row with a null
name, one unflagged row — the name distribution misses the null-named
flagged row, so its total (1) is strictly below the flagged count (2). -/
theorem C10_hot_topic_null_names_witness :
    (∃ out, display_hot_topic_stats dfHot = .render out
      ∧ out.hot_topic_conversations = (flaggedRows dfHot).length
      ∧ out.hot_topic_rate
          = ((flaggedRows dfHot).length : Rat) / (dfHot.rows.length : Rat) * 100
      ∧ out.totalHot = total_hot_topics dfHot
      ∧ ∀ t ∈ out.table,
          t.pctHot = round1 ((t.clics : Rat) / (total_hot_topics dfHot : Rat) * 100))
    ∧ total_hot_topics dfHot
        + ((flaggedRows dfHot).filter fun r => r.hot_topic_name = none).length
        = (flaggedRows dfHot).length
    ∧ (((flaggedRows dfHot).filter fun r => r.hot_topic_name = none).length ≠ 0 →
        total_hot_topics dfHot < (flaggedRows dfHot).length) :=
  C10_hot_topic_null_names dfHot (by decide) (by decide) (by decide) (by decide)

/-- Rewriting a row's date with its own normalization is the identity when
the date carries no time-of-day part. -/
theorem setDate_normalize_self (r : Row) (h : r.date.frac = 0) :
    r.setDate r.date.normalize = r := by
  obtain ⟨t, s, d, cid, tc, dc, fp, fn, ln, ih, hn, u, dv, fd⟩ := r
  obtain ⟨day, frac⟩ := d
  simp only [Timestamp.frac] at h
  subst h
  rfl

/-- C9 (amended): no panel but the conversation-metrics one touches the
dataset; that panel rewrites the `date` column in place with re-parsed,
day-normalized values (line 111), which is the identity exactly when every
date is already day-normalized — as `main` guarantees after load
(line 954). -/
theorem C9_panel_purity :
    (∀ df, dfAfter_display_statistics df = df
      ∧ dfAfter_display_default_stats df = df
      ∧ dfAfter_display_formulaire_stats df = df
      ∧ dfAfter_display_satisfaction_metrics df = df
      ∧ dfAfter_display_hot_topic_stats df = df
      ∧ dfAfter_display_language_analysis df = df
      ∧ dfAfter_display_url_and_device_stats df = df)
    ∧ (∀ df, dfAfter_display_conversation_metrics df = df
        ∨ dfAfter_display_conversation_metrics df
            = ⟨df.cols, df.rows.map fun r => r.setDate r.date.normalize⟩)
    ∧ (∀ df, (∀ r ∈ df.rows, r.date.frac = 0) →
        dfAfter_display_conversation_metrics df = df) := by
  have hmap : ∀ l : List Row, (∀ r ∈ l, r.date.frac = 0) →
      l.map (fun r => r.setDate r.date.normalize) = l := by
    intro l hl
    induction l with
    | nil => rfl
    | cons a t ih =>
      rw [List.map_cons, setDate_normalize_self a (hl a (List.mem_cons_self a t)),
        ih fun r hr => hl r (List.mem_cons_of_mem a hr)]
  refine ⟨fun df => ⟨rfl, rfl, rfl, rfl, rfl, rfl, rfl⟩, ?_, ?_⟩
  · intro df
    simp only [dfAfter_display_conversation_metrics]
    split_ifs
    · exact Or.inl rfl
    · exact Or.inl rfl
    · exact Or.inr rfl
  · intro df hfrac
    obtain ⟨cols, rows⟩ := df
    simp only [dfAfter_display_conversation_metrics]
    split_ifs
    · rfl
    · rfl
    · rw [hmap rows hfrac]

/-- Counterexample to C9 as stated: a dataset whose single date has a
half-day time component is changed by `display_conversation_metrics` — the
panel rewrites its `date` column to the normalized value. -/
theorem C9_mutation_counterexample :
    dfAfter_display_conversation_metrics dfBadDate ≠ dfBadDate := by decide

/-- Witness for C9 on a dataset with day-normalized dates: the
conversation-metrics panel leaves it unchanged. -/
theorem C9_panel_purity_witness :
    dfAfter_display_conversation_metrics dfGoodDate = dfGoodDate :=
  C9_panel_purity.2.2 dfGoodDate (by decide)

/-- Rounding to one decimal moves a value by at most 1/20 (half of the
last kept decimal). -/
theorem abs_round1_sub (q : Rat) : |round1 q - q| ≤ 1 / 20 := by
  have h := abs_sub_round (10 * q)
  rw [abs_sub_comm] at h
  have h10 : ((round (10 * q) : Int) : Rat) / 10 - q
      = ((round (10 * q) : Int) - 10 * q) / 10 := by ring
  rw [round1, h10, abs_div]
  rw [show |(10 : Rat)| = 10 by norm_num]
  calc |((round (10 * q) : Int) : Rat) - 10 * q| / 10
      ≤ (1 / 2) / 10 := by gcongr
    _ = 1 / 20 := by norm_num

/-- Summing pointwise-close lists keeps the sums within `length * c`. -/
theorem abs_sum_sub_sum_le {α : Type} (l : List α) (f g : α → Rat) (c : Rat)
    (hc : ∀ x ∈ l, |f x - g x| ≤ c) :
    |(l.map f).sum - (l.map g).sum| ≤ l.length * c := by
  induction l with
  | nil => simp
  | cons a t ih =>
    simp only [List.map_cons, List.sum_cons, List.length_cons]
    have h1 : |f a - g a| ≤ c := hc a (List.mem_cons_self a t)
    have h2 := ih fun x hx => hc x (List.mem_cons_of_mem _ hx)
    calc |f a + (t.map f).sum - (g a + (t.map g).sum)|
        = |(f a - g a) + ((t.map f).sum - (t.map g).sum)| := by ring_nf
      _ ≤ |f a - g a| + |(t.map f).sum - (t.map g).sum| := abs_add _ _
      _ ≤ c + t.length * c := add_le_add h1 h2
      _ = (t.length + 1) * c := by ring
      _ = ((t.length + 1 : Nat) : Rat) * c := by push_cast; ring

/-- Dividing a summed integer column by `n` and scaling to a percentage
distributes over the summands (also when `n = 0`, where both sides are
0). -/
theorem natsum_div_mul {α : Type} (l : List α) (g : α → Nat) (n : Rat) :
    (((l.map g).sum : Nat) : Rat) / n * 100
      = (l.map fun x => ((g x : Nat) : Rat) / n * 100).sum := by
  induction l with
  | nil => simp
  | cons a t ih =>
    simp only [List.map_cons, List.sum_cons]
    rw [Nat.cast_add, add_div, add_mul, ih]

/-- Summing one-decimal roundings stays within `(k + 1)/20` of the rounding
of the exact sum, `k` the number of summands. -/
theorem sum_round1_bound {α : Type} (l : List α) (f : α → Rat) :
    |(l.map fun x => round1 (f x)).sum - round1 ((l.map f).sum)|
      ≤ ((l.length : Rat) + 1) / 20 := by
  have h1 : |(l.map fun x => round1 (f x)).sum - (l.map f).sum|
      ≤ l.length * (1 / 20) := by
    have := abs_sum_sub_sum_le l (fun x => round1 (f x)) f (1 / 20)
      fun x _ => abs_round1_sub (f x)
    simpa using this
  have h2 : |(l.map f).sum - round1 ((l.map f).sum)| ≤ 1 / 20 := by
    rw [abs_sub_comm]
    exact abs_round1_sub _
  calc |(l.map fun x => round1 (f x)).sum - round1 ((l.map f).sum)|
      = |((l.map fun x => round1 (f x)).sum - (l.map f).sum)
          + ((l.map f).sum - round1 ((l.map f).sum))| := by ring_nf
    _ ≤ |(l.map fun x => round1 (f x)).sum - (l.map f).sum|
          + |(l.map f).sum - round1 ((l.map f).sum)| := abs_add _ _
    _ ≤ l.length * (1 / 20) + 1 / 20 := add_le_add h1 h2
    _ = ((l.length : Rat) + 1) / 20 := by ring

/-- C8: in the theme table, each theme's displayed percentage agrees with
the sum of its sub-themes' displayed percentages up to the accumulated
one-decimal rounding slack (`(k + 1)/20` percentage points for `k`
sub-theme lines), themes are ordered descending by total count, and the
sub-themes inside each theme are ordered descending by count. -/
theorem C8_theme_percentages (df : Dataset) (out : StatsOut) (b : StatsBlock)
    (hout : display_statistics df = .render out) (hb : b ∈ out.table) :
    |((b.subRows.map fun r => r.percentage).sum) - b.theme_percentage|
        ≤ ((b.subRows.length : Rat) + 1) / 20
      ∧ List.Pairwise (fun x y : StatsBlock => y.count ≤ x.count) out.table
      ∧ List.Pairwise (fun x y : StatsSubRow => y.count ≤ x.count) b.subRows := by
  simp only [display_statistics] at hout
  split_ifs at hout
  injection hout with hout
  subst hout
  obtain ⟨p, hp, rfl⟩ := List.mem_map.mp hb
  refine ⟨?_, ?_, ?_⟩
  · have hperm : List.Perm
        (sortDescBy (fun p => p.2)
          ((themeSubs df p.1).map fun s => (s, pairCount df p.1 s)))
        ((themeSubs df p.1).map fun s => (s, pairCount df p.1 s)) :=
      List.perm_insertionSort _ _
    have hp2 : p.2 = themeTotal df p.1 := by
      have hp' : p ∈ (themesOf df).map fun t => (t, themeTotal df t) :=
        (List.perm_insertionSort _ _).mem_iff.mp hp
      obtain ⟨t, _, rfl⟩ := List.mem_map.mp hp'
      rfl
    have hsum : ((statsSubRowsFor df p.1).map fun r => r.percentage).sum
        = ((themeSubs df p.1).map fun s =>
            round1 ((pairCount df p.1 s : Rat) / (df.rows.length : Rat) * 100)).sum := by
      rw [statsSubRowsFor, List.map_map]
      have hcomp : ((fun r : StatsSubRow => r.percentage) ∘ fun q : String × Nat =>
          (⟨q.1, round1 ((q.2 : Rat) / (df.rows.length : Rat) * 100), q.2⟩ : StatsSubRow))
          = fun q : String × Nat =>
            round1 ((q.2 : Rat) / (df.rows.length : Rat) * 100) := rfl
      rw [hcomp]
      rw [(hperm.map fun q : String × Nat =>
        round1 ((q.2 : Rat) / (df.rows.length : Rat) * 100)).sum_eq]
      rw [List.map_map]
      rfl
    have hlen : (statsSubRowsFor df p.1).length = (themeSubs df p.1).length := by
      rw [statsSubRowsFor, List.length_map, hperm.length_eq, List.length_map]
    have hpct : (p.2 : Rat) / (df.rows.length : Rat) * 100
        = ((themeSubs df p.1).map fun s =>
            (pairCount df p.1 s : Rat) / (df.rows.length : Rat) * 100).sum := by
      rw [hp2, themeTotal]
      exact natsum_div_mul _ _ _
    show |((statsSubRowsFor df p.1).map fun r => r.percentage).sum
        - round1 ((p.2 : Rat) / (df.rows.length : Rat) * 100)|
        ≤ (((statsSubRowsFor df p.1).length : Rat) + 1) / 20
    rw [hsum, hlen, hpct]
    exact sum_round1_bound (themeSubs df p.1)
      fun s => (pairCount df p.1 s : Rat) / (df.rows.length : Rat) * 100
  · refine List.Pairwise.map _ ?_ (List.sorted_insertionSort _ _)
    intro a c hac
    exact hac
  · refine List.Pairwise.map _ ?_ (List.sorted_insertionSort _ _)
    intro a c hac
    exact hac

/-- Witness for C8 on `dfTheme` (theme `A`: sub-themes 50% + 25% against
theme total 75%; themes ordered `A` (3) before `B` (1)). -/
theorem C8_theme_percentages_witness :
    |((blockA.subRows.map fun r => r.percentage).sum) - blockA.theme_percentage|
        ≤ ((blockA.subRows.length : Rat) + 1) / 20
      ∧ List.Pairwise (fun x y : StatsBlock => y.count ≤ x.count) outTheme.table
      ∧ List.Pairwise (fun x y : StatsSubRow => y.count ≤ x.count) blockA.subRows := by
  have hA : hasThemeCount dfTheme = 4 := by decide
  have hn : dfTheme.rows.length = 4 := by decide
  have hthemes : sortDescBy (fun p => p.2)
      ((themesOf dfTheme).map fun t => (t, themeTotal dfTheme t))
      = [("A", 3), ("B", 1)] := by decide
  have hsubA : sortDescBy (fun p => p.2)
      ((themeSubs dfTheme "A").map fun s => (s, pairCount dfTheme "A" s))
      = [("x", 2), ("y", 1)] := by decide
  have hsubB : sortDescBy (fun p => p.2)
      ((themeSubs dfTheme "B").map fun s => (s, pairCount dfTheme "B" s))
      = [("z", 1)] := by decide
  have hout : display_statistics dfTheme = .render outTheme := by
    simp only [display_statistics]
    rw [if_neg (by decide : ¬ (dfTheme.rows.isEmpty = true))]
    rw [if_neg (by decide : ¬ ("theme_principal" ∉ dfTheme.cols
      ∨ "sous_theme" ∉ dfTheme.cols))]
    rw [if_neg (by decide : ¬ ((themePairs dfTheme).isEmpty = true))]
    rw [hthemes, hA, hn]
    simp only [List.map_cons, List.map_nil, statsSubRowsFor, hsubA, hsubB]
    rw [outTheme]
    norm_num [round1, round_eq, blockA, hn]
  exact C8_theme_percentages dfTheme outTheme blockA hout (by decide)
